import Mathlib

/-!
# Verification of the HabitFund contributions updater

A shallow embedding of `src/update_contributions.py`: the country resolver
(`get_country_info`), the record builder of `main` (`clean_category`,
`index_to_id`, tag splitting), the index construction, and the Slack
notifier (`send_slack_message`).

Python strings are modelled as Lean `String`s, and the Python `str` methods
used by the script (`lower`, `upper`, `strip`, `split`, `replace`) are
modelled by structurally recursive functions over `String.data`, so that
every definition evaluates by kernel reduction.  Exceptions are modelled
with `Except`: the pycountry lookup (an external library call that may raise)
is a parameter of type `String → Except String LookupRec`, and the webhook
transport is a parameter of type `String → Except String Nat`.  Side effects
(Slack notification calls, log lines) are returned explicitly as lists.
-/

namespace HabitFund

/-- Model of Python `str.lower` (ASCII case mapping, as used on country
names and alpha-2 codes). -/
def pyLower (s : String) : String :=
  String.mk (s.data.map Char.toLower)

/-- Model of Python `str.upper` (ASCII case mapping, used for the record's
`country` field). -/
def pyUpper (s : String) : String :=
  String.mk (s.data.map Char.toUpper)

/-- Model of Python `str.strip` with no argument: drop whitespace from both
ends. -/
def pyStrip (s : String) : String :=
  String.mk (((s.data.dropWhile Char.isWhitespace).reverse.dropWhile
    Char.isWhitespace).reverse)

/-- Model of Python `str.split(sep)` for a non-empty separator, over char
lists, with explicit fuel (any fuel at least the length of the input gives
the true result; callers pass the length itself).  Scans left to right and
splits at each non-overlapping occurrence of `sep`. -/
def splitSepF (sep : List Char) : Nat → List Char → List (List Char)
  | _, [] => [[]]
  | 0, s => [s]
  | fuel + 1, c :: rest =>
    if sep ≠ [] ∧ sep.isPrefixOf (c :: rest) then
      [] :: splitSepF sep fuel ((c :: rest).drop sep.length)
    else
      match splitSepF sep fuel rest with
      | [] => [[c]]
      | t :: ts => (c :: t) :: ts

/-- Model of Python `str.split(sep)` on strings. -/
def pySplit (sep s : String) : List String :=
  (splitSepF sep.data s.data.length s.data).map String.mk

/-- Model of Python `str.replace(old, new)` for a non-empty `old`:
split at every occurrence of `old` and rejoin with `new`. -/
def pyReplace (s old new : String) : String :=
  String.mk (List.intercalate new.data (splitSepF old.data s.data.length s.data))

/-- Result of a successful `pycountry.countries.lookup`: the fields the
script reads (`alpha_2` and `name`). -/
structure LookupRec where
  alpha_2 : String
  name : String

/-- The resolver's result triple `(code, full_name, flag_url)`. -/
structure CountryInfo where
  code : String
  fullName : String
  flagUrl : String

/-- The `exceptions` dict of `get_country_info`: exact-match (case-sensitive,
whole string) from country name to `(code, fullName)`. -/
def excLookup (name : String) : Option (String × String) :=
  if name = "South Korea" then some ("kr", "South Korea")
  else if name = "United States" then some ("us", "United States")
  else if name = "Global" then some ("global", "Global")
  else if name = "Russia" then some ("ru", "Russia")
  else none

/-- The fallback code: lowercase the input and replace spaces with
underscores (`name.lower().replace(" ", "_")`). -/
def fallbackCode (name : String) : String :=
  pyReplace (pyLower name) " " "_"

/-- The warning message sent to Slack when the lookup falls back. -/
def fallbackWarning (name code : String) : String :=
  "⚠️ Country lookup failed for '" ++ name ++ "'. Using fallback code: '" ++
    code ++ "'"

/-- `get_country_info`: the country resolver.  `lookup` models
`pycountry.countries.lookup`, which either returns a record or raises (any
exception is caught by the bare `except:`).  Returns the `CountryInfo`
triple together with the list of messages passed to `send_slack_message`
during the resolution. -/
def get_country_info (lookup : String → Except String LookupRec)
    (name : String) : CountryInfo × List String :=
  let step : String × String × List String :=
    match excLookup name with
    | some (c, f) => (c, f, [])
    | none =>
      match lookup name with
      | Except.ok r => (pyLower r.alpha_2, r.name, [])
      | Except.error _ =>
        (fallbackCode name, name, [fallbackWarning name (fallbackCode name)])
  let flag_url :=
    if step.1 = "global" then "https://flagcdn.com/w40/un.png"
    else "https://flagcdn.com/w40/" ++ step.1 ++ ".png"
  (⟨step.1, step.2.1, flag_url⟩, step.2.2)

/-- `clean_category`: the first `" - "`-separated segment, stripped;
empty input gives the empty string. -/
def clean_category (val : String) : String :=
  if val = "" then ""
  else pyStrip ((pySplit " - " val).headD "")

/-- Zero-padding of `f"{n:03d}"` for a natural number: pad the decimal
representation with leading zeros to width 3. -/
def pad3 (n : Nat) : String :=
  let s := toString n
  if s.length < 3 then String.mk (List.replicate (3 - s.length) '0') ++ s
  else s

/-- `index_to_id`: the record id `f"{file_code}_{idx+1:03d}"`. -/
def index_to_id (file_code : String) (idx : Nat) : String :=
  file_code ++ "_" ++ pad3 (idx + 1)

/-- The webhook configuration and transport.  `webhookUrl` is the stripped
`SLACK_WEBHOOK_URL` environment variable (`none` when unset); `transport`
models `urllib.request.urlopen`, returning a status code or raising. -/
structure SlackEnv where
  webhookUrl : Option String
  transport : String → Except String Nat

/-- Python's falsiness test `if not SLACK_WEBHOOK_URL`: unset or empty. -/
def webhookUnset (w : Option String) : Bool :=
  match w with
  | none => true
  | some s => s = ""

/-- `send_slack_message`: best-effort notifier.  Returns the log lines
printed; any transport exception is caught and logged. -/
def send_slack_message (env : SlackEnv) (message : String) : List String :=
  if webhookUnset env.webhookUrl then
    ["⚠️ SLACK_WEBHOOK_URL not set. Skipping notification."]
  else
    match env.transport message with
    | Except.ok status =>
      if status = 200 then ["✅ Slack notification sent."]
      else ["⚠️ Failed to send Slack notification: " ++ toString status]
    | Except.error e => ["⚠️ Error sending Slack notification: " ++ e]

/-- A source row after `fillna("")`: the columns the script reads, all
strings (blank cells are empty strings). -/
structure Row where
  country : String
  orgName : String
  category : String
  searchTags : String
  officialUrl : String
  description : String

/-- One output record of a per-country JSON file. -/
structure ContributorRecord where
  id : String
  name : String
  category : String
  country : String
  tags : List String
  url : String
  desc : String

/-- One entry of `contributors/index.json`. -/
structure IndexEntry where
  country : String
  code : String
  flag : String
  path : String
  count : Nat

/-- The tags field of a record: the `Search Tags` cell split on commas with
each element stripped, or `[]` when the cell is blank (Python falsiness of
the empty string). -/
def buildTags (searchTags : String) : List String :=
  if searchTags = "" then [] else (pySplit "," searchTags).map pyStrip

/-- The record built for row `row` at position `i` (0-based) of its country
group, for the group's file code. -/
def buildItem (file_code : String) (i : Nat) (row : Row) : ContributorRecord :=
  { id := index_to_id file_code i
    name := row.orgName
    category := clean_category row.category
    country := pyUpper file_code
    tags := buildTags row.searchTags
    url := row.officialUrl
    desc := row.description }

/-- One iteration of the `for country_name, group in df.groupby('Country')`
loop of `main`: resolve the country, build the record list `json_data`, and
the index entry.  Returns `((relative_path, json_data), indexEntry,
slackCalls)`. -/
def processGroup (lookup : String → Except String LookupRec)
    (country_name : String) (rows : List Row) :
    (String × List ContributorRecord) × IndexEntry × List String :=
  let res := get_country_info lookup country_name
  let file_code := res.1.code
  let relative_path := "contributors/" ++ file_code ++ ".json"
  let json_data := rows.enum.map fun p => buildItem file_code p.1 p.2
  ((relative_path, json_data),
   ⟨res.1.fullName, file_code, res.1.flagUrl, relative_path, json_data.length⟩,
   res.2)

/-- The whole grouping loop of `main`: for each `(country_name, rows)` group,
the written file (path and records) and the index entry appended to
`index_data`. -/
def mainRun (lookup : String → Except String LookupRec)
    (groups : List (String × List Row)) :
    List ((String × List ContributorRecord) × IndexEntry) :=
  groups.map fun g =>
    ((processGroup lookup g.1 g.2).1, (processGroup lookup g.1 g.2).2.1)

/-- Specification-side definition for claim C7: the substring of `s` before
the first occurrence of `sep` (the whole string when `sep` does not occur),
over char lists. -/
def beforeFirstSep (sep : List Char) : List Char → List Char
  | [] => []
  | c :: rest =>
    if sep.isPrefixOf (c :: rest) then [] else c :: beforeFirstSep sep rest

/-- Decimal value of a digit string (used to invert `pad3`). -/
def digitsToNat (l : List Char) : Nat :=
  l.foldl (fun acc c => acc * 10 + (c.toNat - 48)) 0

/-- A standards lookup that always fails, used for concrete fallback runs. -/
def errLookup : String → Except String LookupRec :=
  fun _ => Except.error "lookup failed"

/-- A concrete source row used in concrete runs of the grouping loop. -/
def sampleRow : Row :=
  ⟨"South Korea", "Org", "tech - software", "a, b", "https://example.org", "desc"⟩

/-- C1: the resolver's three-step precedence.  If the input is a key of the
exception table, the table's pair is returned, for every standards lookup
whatsoever (so the table wins even when the lookup would recognize the
name); otherwise, when the standards lookup succeeds, the code is its
alpha-2 code lowercased and the full name is the lookup's canonical name. -/
theorem c1_resolver_precedence (lookup : String → Except String LookupRec)
    (name : String) :
    (∀ c f, excLookup name = some (c, f) →
      (get_country_info lookup name).1.code = c ∧
      (get_country_info lookup name).1.fullName = f) ∧
    (excLookup name = none → ∀ r, lookup name = Except.ok r →
      (get_country_info lookup name).1.code = pyLower r.alpha_2 ∧
      (get_country_info lookup name).1.fullName = r.name) := by
  constructor
  · intro c f h
    simp [get_country_info, h]
  · intro h r hr
    simp [get_country_info, h, hr]

/-- Witness for C1: "South Korea" resolves through the exception table to
`("kr", "South Korea")` even under a lookup that recognizes every name, and
a name absent from the table resolves through the lookup to its lowercased
alpha-2 code. -/
theorem c1_resolver_precedence_witness :
    ((get_country_info (fun _ => Except.ok ⟨"KP", "Korea, Republic of"⟩)
        "South Korea").1.code = "kr" ∧
      (get_country_info (fun _ => Except.ok ⟨"KP", "Korea, Republic of"⟩)
        "South Korea").1.fullName = "South Korea") ∧
    (get_country_info (fun _ => Except.ok ⟨"DE", "Germany"⟩)
        "Germany").1.code = "de" := by
  refine ⟨(c1_resolver_precedence (fun _ => Except.ok ⟨"KP", "Korea, Republic of"⟩)
      "South Korea").1 "kr" "South Korea" (by decide), ?_⟩
  have h := (c1_resolver_precedence (fun _ => Except.ok ⟨"DE", "Germany"⟩)
      "Germany").2 (by decide) ⟨"DE", "Germany"⟩ rfl
  exact h.1.trans (by decide)

/-- C2: when a name is neither an exception-table key nor recognized by the
standards lookup, the resolver returns the lowercased input with spaces
replaced by underscores as code, the input unchanged as full name, and makes
exactly one notification call, whose message contains the input and the
derived fallback code. -/
theorem c2_fallback_behaviour (lookup : String → Except String LookupRec)
    (name e : String) (hexc : excLookup name = none)
    (hlook : lookup name = Except.error e) :
    (get_country_info lookup name).1.code = pyReplace (pyLower name) " " "_" ∧
    (get_country_info lookup name).1.fullName = name ∧
    (get_country_info lookup name).2.length = 1 ∧
    ∀ w ∈ (get_country_info lookup name).2,
      List.IsInfix name.data w.data ∧
      List.IsInfix (pyReplace (pyLower name) " " "_").data w.data := by
  have hres : get_country_info lookup name =
      (⟨fallbackCode name, name,
        "https://flagcdn.com/w40/" ++ fallbackCode name ++ ".png"⟩,
       [fallbackWarning name (fallbackCode name)]) ∨
      get_country_info lookup name =
      (⟨fallbackCode name, name, "https://flagcdn.com/w40/un.png"⟩,
       [fallbackWarning name (fallbackCode name)]) := by
    by_cases hg : fallbackCode name = "global"
    · right; simp [get_country_info, hexc, hlook, hg]
    · left; simp [get_country_info, hexc, hlook, hg]
  have hinfix : ∀ w ∈ [fallbackWarning name (fallbackCode name)],
      List.IsInfix name.data w.data ∧
      List.IsInfix (pyReplace (pyLower name) " " "_").data w.data := by
    intro w hw
    rw [List.mem_singleton] at hw
    subst hw
    constructor
    · exact ⟨("⚠️ Country lookup failed for '" : String).data,
        ("'. Using fallback code: '" : String).data ++ (fallbackCode name).data ++
          ("'" : String).data,
        by simp [fallbackWarning, String.data_append]⟩
    · exact ⟨("⚠️ Country lookup failed for '" : String).data ++ name.data ++
          ("'. Using fallback code: '" : String).data,
        ("'" : String).data,
        by simp [fallbackWarning, fallbackCode, String.data_append]⟩
  rcases hres with h | h <;>
    exact ⟨by rw [h]; rfl, by rw [h], by rw [h]; rfl, by rw [h]; exact hinfix⟩

/-- Witness for C2: the unknown name "Wonderland" under an always-failing
lookup. -/
theorem c2_fallback_behaviour_witness :
    (get_country_info errLookup "Wonderland").1.code =
      pyReplace (pyLower "Wonderland") " " "_" ∧
    (get_country_info errLookup "Wonderland").1.fullName = "Wonderland" ∧
    (get_country_info errLookup "Wonderland").2.length = 1 ∧
    ∀ w ∈ (get_country_info errLookup "Wonderland").2,
      List.IsInfix ("Wonderland" : String).data w.data ∧
      List.IsInfix (pyReplace (pyLower "Wonderland") " " "_").data w.data :=
  c2_fallback_behaviour errLookup "Wonderland" "lookup failed" (by decide) rfl

/-- C3: the resolver is total: for every lookup and every name it returns a
`(code, fullName, flagUrl)` triple together with its notification calls; in
particular the fallback path returns a value even on input with mixed case,
extra whitespace, and non-ASCII characters. -/
theorem c3_resolver_total (lookup : String → Except String LookupRec)
    (name : String) :
    (∃ info slackCalls, get_country_info lookup name = (info, slackCalls)) ∧
    (get_country_info errLookup " WoNdEr LaNd 한국 ").1.fullName
      = " WoNdEr LaNd 한국 " ∧
    (get_country_info errLookup " WoNdEr LaNd 한국 ").1.code
      = "_wonder_land_한국_" ∧
    (get_country_info errLookup " WoNdEr LaNd 한국 ").2.length = 1 := by
  exact ⟨⟨(get_country_info lookup name).1, (get_country_info lookup name).2,
    rfl⟩, by decide, by decide, by decide⟩

/-- C4: the flag URL is the fixed UN flag exactly for code "global", and
otherwise `https://flagcdn.com/w40/{code}.png`. -/
theorem c4_flag_url (lookup : String → Except String LookupRec)
    (name : String) :
    (get_country_info lookup name).1.flagUrl =
      if (get_country_info lookup name).1.code = "global" then
        "https://flagcdn.com/w40/un.png"
      else
        "https://flagcdn.com/w40/" ++ (get_country_info lookup name).1.code ++
          ".png" := rfl

/-- `pad3` on 0 ≤ n < 1000 has width exactly 3 and is inverted by
`digitsToNat` (checked by evaluation). -/
theorem pad3_spec : ∀ n, n < 1000 →
    digitsToNat (pad3 n).data = n ∧ (pad3 n).length = 3 := by
  set_option maxRecDepth 10000 in decide

/-- C5: record ids are injective within a country group for indices below
999, and each id is the code, an underscore, and `i+1` zero-padded to
width 3; in particular `kr_001` and `kr_010` for group "kr" at indices 0
and 9. -/
theorem c5_record_ids (code : String) (i j : Nat)
    (hi : i < 999) (hj : j < 999) (hij : i ≠ j) :
    index_to_id code i ≠ index_to_id code j ∧
    index_to_id code i = code ++ "_" ++ pad3 (i + 1) ∧
    (pad3 (i + 1)).length = 3 ∧
    index_to_id "kr" 0 = "kr_001" ∧ index_to_id "kr" 9 = "kr_010" := by
  refine ⟨?_, rfl, (pad3_spec (i + 1) (by omega)).2, by decide, by decide⟩
  intro h
  apply hij
  have hd : (index_to_id code i).data = (index_to_id code j).data := by rw [h]
  simp only [index_to_id, String.data_append] at hd
  have hpad : (pad3 (i + 1)).data = (pad3 (j + 1)).data :=
    List.append_cancel_left hd
  have h1 := (pad3_spec (i + 1) (by omega)).1
  have h2 := (pad3_spec (j + 1) (by omega)).1
  rw [hpad] at h1
  omega

/-- Witness for C5 at group "kr", indices 0 and 9. -/
theorem c5_record_ids_witness :
    index_to_id "kr" 0 ≠ index_to_id "kr" 9 :=
  (c5_record_ids "kr" 0 9 (by decide) (by decide) (by decide)).1

/-- C6: for every country group of a run, the index entry's `count` equals
the length of the record list written for the group, which is one record
per source row; and every entry of the final index satisfies the count
invariant. -/
theorem c6_index_count (lookup : String → Except String LookupRec)
    (groups : List (String × List Row)) (name : String) (rows : List Row)
    (hmem : (name, rows) ∈ groups) :
    (processGroup lookup name rows).2.1.count
      = (processGroup lookup name rows).1.2.length ∧
    (processGroup lookup name rows).1.2.length = rows.length ∧
    ((processGroup lookup name rows).1, (processGroup lookup name rows).2.1)
      ∈ mainRun lookup groups ∧
    ∀ pe ∈ mainRun lookup groups, pe.2.count = pe.1.2.length := by
  refine ⟨rfl, ?_, ?_, ?_⟩
  · simp [processGroup]
  · exact List.mem_map.mpr ⟨(name, rows), hmem, rfl⟩
  · intro pe hpe
    rcases List.mem_map.mp hpe with ⟨g, hg, rfl⟩
    rfl

/-- Witness for C6: a one-group run with one row. -/
theorem c6_index_count_witness :
    (processGroup errLookup "South Korea" [sampleRow]).2.1.count
      = (processGroup errLookup "South Korea" [sampleRow]).1.2.length ∧
    (processGroup errLookup "South Korea" [sampleRow]).1.2.length
      = [sampleRow].length ∧
    ((processGroup errLookup "South Korea" [sampleRow]).1,
      (processGroup errLookup "South Korea" [sampleRow]).2.1)
      ∈ mainRun errLookup [("South Korea", [sampleRow])] ∧
    ∀ pe ∈ mainRun errLookup [("South Korea", [sampleRow])],
      pe.2.count = pe.1.2.length :=
  c6_index_count errLookup [("South Korea", [sampleRow])] "South Korea"
    [sampleRow] (List.mem_singleton.mpr rfl)

/-- The head of the split is the segment before the first occurrence of the
separator, for any sufficient fuel and any non-empty separator. -/
theorem headD_splitSepF (sep : List Char) (hsep : sep ≠ []) :
    ∀ (fuel : Nat) (s : List Char), s.length ≤ fuel →
      (splitSepF sep fuel s).headD [] = beforeFirstSep sep s := by
  intro fuel
  induction fuel with
  | zero =>
    intro s hs
    cases s with
    | nil => rfl
    | cons c rest => simp at hs
  | succ n ih =>
    intro s hs
    cases s with
    | nil => rfl
    | cons c rest =>
      have hrest : rest.length ≤ n := by
        simpa using Nat.le_of_succ_le_succ hs
      by_cases hp : sep.isPrefixOf (c :: rest)
      · simp [splitSepF, beforeFirstSep, hsep, hp]
      · have hih := ih rest hrest
        simp only [splitSepF, beforeFirstSep, hsep, hp, ne_eq,
          not_false_iff, true_and, if_neg, if_false]
        cases hsp : splitSepF sep n rest with
        | nil => rw [hsp] at hih; simpa using hih.symm
        | cons t ts => rw [hsp] at hih; simpa using hih

/-- The head of a mapped `String.mk` list. -/
theorem headD_map_mk (l : List (List Char)) :
    (l.map String.mk).headD "" = String.mk (l.headD []) := by
  cases l <;> rfl

/-- C7: `clean_category` returns the substring of its input before the
first occurrence of the literal `" - "` separator, trimmed of surrounding
whitespace; in particular "tech - software" gives "tech" and "" gives "". -/
theorem c7_clean_category :
    (∀ s : String, clean_category s
        = pyStrip (String.mk (beforeFirstSep (" - ".data) s.data))) ∧
    clean_category "tech - software" = "tech" ∧ clean_category "" = "" := by
  refine ⟨?_, by decide, rfl⟩
  intro s
  by_cases h : s = ""
  · subst h; rfl
  · show (if s = "" then "" else pyStrip ((pySplit " - " s).headD "")) = _
    rw [if_neg h]
    unfold pySplit
    rw [headD_map_mk, headD_splitSepF (" - ".data) (by decide) s.data.length
      s.data (Nat.le_refl _)]

/-- C8: the tags field of every built record is the Search Tags field split
on commas with each element trimmed, and the blank field yields the empty
list, not `[""]`. -/
theorem c8_tag_splitting (file_code : String) (i : Nat) (row : Row) :
    (buildItem file_code i row).tags
      = (if row.searchTags = "" then []
         else (pySplit "," row.searchTags).map pyStrip) ∧
    buildTags "" = [] ∧ buildTags "" ≠ [""] ∧
    buildTags "a, b,c" = ["a", "b", "c"] := by
  exact ⟨rfl, rfl, by decide, by decide⟩

/-- C9: the notifier never raises and never aborts: it always returns its
log lines; with no webhook configured it returns after logging only, with a
result independent of the transport; a transport exception is logged and
swallowed; a non-200 status is logged and swallowed. -/
theorem c9_notifier_best_effort (w : Option String)
    (t t₂ : String → Except String Nat) (m e : String) (status : Nat) :
    (∃ logs, send_slack_message ⟨w, t⟩ m = logs) ∧
    (webhookUnset w = true →
      send_slack_message ⟨w, t⟩ m
        = ["⚠️ SLACK_WEBHOOK_URL not set. Skipping notification."] ∧
      send_slack_message ⟨w, t⟩ m = send_slack_message ⟨w, t₂⟩ m) ∧
    (webhookUnset w = false → t m = Except.error e →
      send_slack_message ⟨w, t⟩ m
        = ["⚠️ Error sending Slack notification: " ++ e]) ∧
    (webhookUnset w = false → t m = Except.ok status → status ≠ 200 →
      send_slack_message ⟨w, t⟩ m
        = ["⚠️ Failed to send Slack notification: " ++ toString status]) := by
  refine ⟨⟨send_slack_message ⟨w, t⟩ m, rfl⟩, ?_, ?_, ?_⟩
  · intro hw
    constructor <;> simp [send_slack_message, hw]
  · intro hw ht
    simp [send_slack_message, hw, ht]
  · intro hw ht hst
    simp [send_slack_message, hw, ht, hst]

/-- Witness for C9: an unset webhook skips the transport; a configured
webhook with a failing transport logs and swallows the error. -/
theorem c9_notifier_best_effort_witness :
    send_slack_message ⟨none, fun _ => Except.error "refused"⟩ "hello"
      = ["⚠️ SLACK_WEBHOOK_URL not set. Skipping notification."] ∧
    send_slack_message ⟨some "https://hooks.example/x",
        fun _ => Except.error "refused"⟩ "hello"
      = ["⚠️ Error sending Slack notification: " ++ "refused"] :=
  ⟨((c9_notifier_best_effort none (fun _ => Except.error "refused")
      (fun _ => Except.error "refused") "hello" "refused" 0).2.1 rfl).1,
   (c9_notifier_best_effort (some "https://hooks.example/x")
      (fun _ => Except.error "refused") (fun _ => Except.error "refused")
      "hello" "refused" 0).2.2.1 (by decide) rfl⟩

/-- C10: empty tag elements are suppressed only for the blank field: a
non-blank Search Tags field is split on every comma, so consecutive,
leading, or trailing commas yield empty-string elements in place. -/
theorem c10_empty_tag_elements :
    (∀ s : String, s ≠ "" → buildTags s = (pySplit "," s).map pyStrip) ∧
    buildTags "a,,b" = ["a", "", "b"] ∧ buildTags "a," = ["a", ""] ∧
    (buildItem "kr" 0 ⟨"South Korea", "X", "", "a,,b", "", ""⟩).tags
      = ["a", "", "b"] := by
  refine ⟨?_, by decide, by decide, by decide⟩
  intro s hs
  simp [buildTags, hs]

/-- Witness for C10 at the non-blank field "a,,b". -/
theorem c10_empty_tag_elements_witness :
    buildTags "a,,b" = (pySplit "," "a,,b").map pyStrip :=
  (c10_empty_tag_elements).1 "a,,b" (by decide)

end HabitFund
